import Mathlib

/-!
Shallow embedding of the transport core of `src/ba-transport.c` (bluez-alsa).

Pure state is modelled explicitly: a `Transport` record carries the fields that
the acquire/release strategies, the A2DP state machine and the codec mapping
read and write.  External interactions (D-Bus RPC replies, HCI socket results,
pipe writes) are passed in as explicit environment values, and the observable
side effects of a call (RPC invocations, `close`/`shutdown`/`setsockopt`
syscalls) are returned as an event list, so that theorems can state that a code
path performs no RPC or closes a descriptor in a given order.
-/

set_option maxHeartbeats 1000000

namespace BaTransport

/-- Exclusive transport profiles (`BA_TRANSPORT_PROFILE_*` bits of
`struct ba_transport_type`). -/
inductive Profile
  | a2dpSource
  | a2dpSink
  | hfpHF
  | hfpAG
  | hspHS
  | hspAG
  deriving DecidableEq

/-- `profile & BA_TRANSPORT_PROFILE_MASK_A2DP`. -/
def Profile.isA2dp : Profile → Bool
  | .a2dpSource => true
  | .a2dpSink => true
  | _ => false

/-- `profile & BA_TRANSPORT_PROFILE_MASK_SCO` (HFP or HSP). -/
def Profile.isSco (p : Profile) : Bool := !p.isA2dp

/-- `profile & BA_TRANSPORT_PROFILE_MASK_HSP`. -/
def Profile.isHsp : Profile → Bool
  | .hspHS => true
  | .hspAG => true
  | _ => false

/-- `profile & BA_TRANSPORT_PROFILE_MASK_AG` (HFP-AG or HSP-AG). -/
def Profile.isAG : Profile → Bool
  | .hfpAG => true
  | .hspAG => true
  | _ => false

/-- `enum bluez_a2dp_transport_state`. -/
inductive A2dpState
  | idle
  | pending
  | active
  deriving DecidableEq

/-- `HFP_CODEC_UNDEFINED` (hfp.h). -/
def HFP_CODEC_UNDEFINED : Nat := 0

/-- `HFP_CODEC_CVSD` (hfp.h). -/
def HFP_CODEC_CVSD : Nat := 1

/-- `HFP_CODEC_MSBC` (hfp.h). -/
def HFP_CODEC_MSBC : Nat := 2

/-- The transport fields read and written by the acquire/release strategies and
the A2DP state machine (`struct ba_transport`).  `btFd = -1` means unacquired;
`ownerPresent` models `t->bluez_dbus_owner != NULL`. -/
structure Transport where
  profile : Profile
  codec : Nat
  a2dpState : A2dpState
  btFd : Int
  mtuRead : Nat
  mtuWrite : Nat
  ownerPresent : Bool
  deriving DecidableEq

/-- Observable side effects of the acquire/release strategies: D-Bus RPC calls
and socket-level system calls, in program order. -/
inductive Eff
  | rpcCall (method : String)
  | closeFd (fd : Int)
  | shutdownFd (fd : Int)
  | setSockOptSndBuf
  | ioctlOutq
  | hciScoOpen
  | hciScoConnect (voiceCvsd : Bool)
  deriving DecidableEq

/-- Environment for `transport_acquire_bt_a2dp`: the outcome of the D-Bus
`(Try)Acquire` call.  `failure` covers both a failed send and an error-type
reply; `reply` carries the `(hqq)` body (handle index, read MTU, write MTU)
together with the attached Unix FD list. -/
inductive AcquireReply
  | failure
  | reply (handleIdx : Nat) (mtuRead : Nat) (mtuWrite : Nat) (fdList : List Int)
  deriving DecidableEq

/-- `transport_acquire_bt_a2dp` (ba-transport.c:872).  If `bt_fd != -1` the
descriptor is reused (keep-alive) with no RPC.  Otherwise a `TryAcquire`
(state `PENDING`) or `Acquire` RPC is issued; on a reply, the MTUs come from
the body and the new `bt_fd` is `g_unix_fd_list_get(fd_list, 0, ...)` -- the
FD at index 0 of the attached list (the handle index read from the body is
overwritten before use). -/
def transport_acquire_bt_a2dp (t : Transport) (env : AcquireReply) :
    Int × Transport × List Eff :=
  if t.btFd ≠ -1 then
    (t.btFd, t, [])
  else
    let method := if t.a2dpState = A2dpState.pending then "TryAcquire" else "Acquire"
    match env with
    | .failure => (-1, t, [.rpcCall method])
    | .reply _ mr mw fds =>
        let fd := fds.headD (-1)
        (fd, { t with btFd := fd, mtuRead := mr, mtuWrite := mw },
          [.rpcCall method, .setSockOptSndBuf, .ioctlOutq])

/-- The FD selection as the spec sentence describes it, for comparison with the
source: "the handle-index selects an attached Unix FD from the reply's FD
list". -/
def a2dp_acquire_fd_per_spec (handleIdx : Nat) (fdList : List Int) : Int :=
  fdList.getD handleIdx (-1)

/-- Environment for `transport_release_bt_a2dp`: the outcome of the D-Bus
`Release` call.  `softError` stands for `G_DBUS_ERROR_NO_REPLY`,
`SERVICE_UNKNOWN` or `UNKNOWN_OBJECT` (treated as success); `hardError` covers
a failed send and every other D-Bus error. -/
inductive ReleaseReply
  | ok
  | softError
  | hardError
  deriving DecidableEq

/-- `transport_release_bt_a2dp` (ba-transport.c:933).  No-op returning 0 when
`bt_fd = -1`.  The `Release` RPC is issued only when the A2DP state is not
`IDLE` and the D-Bus owner is present; a hard RPC error jumps to `fail` with
`ret = -1`, leaving `bt_fd` open.  Otherwise the FD is closed and set to -1. -/
def transport_release_bt_a2dp (t : Transport) (env : ReleaseReply) :
    Int × Transport × List Eff :=
  if t.btFd = -1 then
    (0, t, [])
  else if t.a2dpState ≠ A2dpState.idle ∧ t.ownerPresent then
    match env with
    | .hardError => (-1, t, [.rpcCall "Release"])
    | _ => (0, { t with btFd := -1 }, [.rpcCall "Release", .closeFd t.btFd])
  else
    (0, { t with btFd := -1 }, [.closeFd t.btFd])

/-- Environment for `transport_acquire_bt_sco`: outcome of
`hci_sco_open` / `hci_sco_connect` / `hci_sco_get_mtu`. -/
inductive ScoConnectResult
  | openFailure
  | connectFailure (fd : Int)
  | connected (fd : Int) (mtu : Nat)
  deriving DecidableEq

/-- `transport_acquire_bt_sco` (ba-transport.c:1002).  Keep-alive when
`bt_fd != -1`; otherwise open and connect a raw SCO socket (voice setting
CVSD-16bit iff the codec is CVSD), then `mtu_read = mtu_write = SCO MTU`. -/
def transport_acquire_bt_sco (t : Transport) (env : ScoConnectResult) :
    Int × Transport × List Eff :=
  if t.btFd ≠ -1 then
    (t.btFd, t, [])
  else
    match env with
    | .openFailure => (-1, t, [.hciScoOpen])
    | .connectFailure fd =>
        (-1, t, [.hciScoOpen, .hciScoConnect (t.codec = HFP_CODEC_CVSD), .closeFd fd])
    | .connected fd mtu =>
        (fd, { t with btFd := fd, mtuRead := mtu, mtuWrite := mtu },
          [.hciScoOpen, .hciScoConnect (t.codec = HFP_CODEC_CVSD)])

/-- `transport_release_bt_sco` (ba-transport.c:1041).  No-op returning 0 when
`bt_fd = -1`; otherwise shutdown + close the socket and set `bt_fd = -1`,
returning 0 unconditionally. -/
def transport_release_bt_sco (t : Transport) : Int × Transport × List Eff :=
  if t.btFd = -1 then
    (0, t, [])
  else
    (0, { t with btFd := -1 }, [.shutdownFd t.btFd, .closeFd t.btFd])

/-- The side effect dispatched by `ba_transport_set_a2dp_state`:
`ba_transport_acquire`, `ba_transport_start`, `ba_transport_stop`, or none
(the `return 0` taken for a `PENDING` state on a non-A2DP-sink profile). -/
inductive A2dpSideEffect
  | invokeAcquire
  | invokeStart
  | invokeStop
  | noneReturn0
  deriving DecidableEq

/-- `ba_transport_set_a2dp_state` (ba-transport.c:746).  The C switch is over
`t->a2dp.state = state`, i.e. the field is assigned unconditionally; then:
`PENDING` invokes acquire only for the exact profile `A2DP_SINK` (else
`return 0`), `ACTIVE` invokes start, and `IDLE` (the `default` case of the
three-valued enum) invokes stop. -/
def ba_transport_set_a2dp_state (t : Transport) (state : A2dpState) :
    Transport × A2dpSideEffect :=
  let t2 := { t with a2dpState := state }
  match state with
  | .pending =>
      (t2, if t.profile = Profile.a2dpSink then .invokeAcquire else .noneReturn0)
  | .active => (t2, .invokeStart)
  | .idle => (t2, .invokeStop)

/-- `enum ba_transport_pcm_mode`. -/
inductive PcmMode
  | source
  | sink
  deriving DecidableEq

/-- `BA_TRANSPORT_PCM_FORMAT_*` tags used by the codec mapping. -/
inductive PcmFormat
  | s16le2
  | s24le4
  | s32le4
  deriving DecidableEq

/-- The SCO-relevant fields of `struct ba_transport_pcm`. -/
structure ScoPcm where
  mode : PcmMode
  maxBtVolume : Nat
  format : PcmFormat
  channels : Nat
  sampling : Nat
  deriving DecidableEq

/-- `ba_transport_set_codec_sco` (ba-transport.c:660).  Both PCM endpoints get
format S16_2LE and 1 channel; the sampling rate is 8000 for CVSD, 16000 for
mSBC, and 0 for `HFP_CODEC_UNDEFINED`.  An unknown codec id hits the `default`
label, which logs a debug message and falls through into the
`HFP_CODEC_UNDEFINED` case, also yielding rate 0. -/
def ba_transport_set_codec_sco (codec : Nat) (spk mic : ScoPcm) : ScoPcm × ScoPcm :=
  let rate : Nat :=
    if codec = HFP_CODEC_CVSD then 8000
    else if codec = HFP_CODEC_MSBC then 16000
    else 0
  ({ spk with format := .s16le2, channels := 1, sampling := rate },
   { mic with format := .s16le2, channels := 1, sampling := rate })

/-- The sampling-rate mapping as the spec sentence of the claim describes it,
for comparison with the source: unknown codec ids are "a programming error
(assert)", i.e. no defined result. -/
def sco_codec_rate_per_spec (codec : Nat) : Option Nat :=
  if codec = HFP_CODEC_CVSD then some 8000
  else if codec = HFP_CODEC_MSBC then some 16000
  else if codec = HFP_CODEC_UNDEFINED then some 0
  else none

/-- The result of `ba_transport_new_sco` relevant to the claims: the chosen
codec and the two PCM endpoints. -/
structure ScoTransport where
  profile : Profile
  codec : Nat
  spkPcm : ScoPcm
  micPcm : ScoPcm
  hasRfcomm : Bool
  deriving DecidableEq

/-- `ba_transport_new_sco` (ba-transport.c:265), success path, for an
`ENABLE_MSBC` build.  The codec is forced to CVSD when the profile is HSP
(`BA_TRANSPORT_PROFILE_MASK_HSP`) and again when the adapter lacks eSCO
support (`BA_TEST_ESCO_SUPPORT`); the speaker PCM is initialized in sink mode
and the mic PCM in source mode, both with `max_bt_volume = 15`; an RFCOMM
session is attached iff `rfcomm_fd != -1`; finally `ba_transport_set_codec`
derives the PCM parameters from the chosen codec. -/
def ba_transport_new_sco (profile : Profile) (codec : Nat) (escoSupported : Bool)
    (rfcommFd : Int) : ScoTransport :=
  let c1 := if profile.isHsp then HFP_CODEC_CVSD else codec
  let c2 := if !escoSupported then HFP_CODEC_CVSD else c1
  let spk0 : ScoPcm :=
    { mode := .sink, maxBtVolume := 15, format := .s16le2, channels := 0, sampling := 0 }
  let mic0 : ScoPcm :=
    { mode := .source, maxBtVolume := 15, format := .s16le2, channels := 0, sampling := 0 }
  let pcms := ba_transport_set_codec_sco c2 spk0 mic0
  { profile := profile, codec := c2, spkPcm := pcms.1, micPcm := pcms.2,
    hasRfcomm := rfcommFd ≠ -1 }

/-- The resource-release events of the zero-refcount branch of
`ba_transport_unref`, in program order. -/
inductive FreeEv
  | closeBtFd
  | deviceUnref
  | freePcm
  | freePcmBc
  | freeConfigBlob
  | rfcommDestroy
  | freeThreadEnc
  | freeThreadDec
  deriving DecidableEq

/-- The transport fields read by `ba_transport_unref`. -/
structure UnrefT where
  refCount : Nat
  path : String
  btFd : Int
  profileA2dp : Bool
  hasRfcomm : Bool
  deriving DecidableEq

/-- The release sequence of `ba_transport_unref` (ba-transport.c:409-433) once
the refcount reached zero: close `bt_fd` if open, unref the device, then free
the profile payload (A2DP: both PCMs and the configuration blob; SCO: the
RFCOMM session if attached and both PCMs), then free both thread handles. -/
def unrefFreeEvents (t : UnrefT) : List FreeEv :=
  (if t.btFd ≠ -1 then [FreeEv.closeBtFd] else []) ++
  [FreeEv.deviceUnref] ++
  (if t.profileA2dp then [FreeEv.freePcm, FreeEv.freePcmBc, FreeEv.freeConfigBlob]
   else (if t.hasRfcomm then [FreeEv.rfcommDestroy] else []) ++
     [FreeEv.freePcm, FreeEv.freePcmBc]) ++
  [FreeEv.freeThreadEnc, FreeEv.freeThreadDec]

/-- `ba_transport_unref` (ba-transport.c:392).  The decrement and, when it
reaches zero, the `g_hash_table_steal` detach happen in the same critical
section of the device's transports-table lock (modelled as one atomic step on
the table, a list of D-Bus paths with unique keys); the release events then
happen outside the lock.  Returns the new table, the new refcount and the
emitted release events. -/
def ba_transport_unref (table : List String) (t : UnrefT) :
    List String × Nat × List FreeEv :=
  let rc := t.refCount - 1
  if rc = 0 then
    (table.filter (fun p => p ≠ t.path), 0, unrefFreeEvents t)
  else
    (table, rc, [])

/-- `ba_transport_lookup` (ba-transport.c:322), restricted to reachability:
whether the device's transports table maps the D-Bus path to a transport. -/
def ba_transport_lookup (table : List String) (path : String) : Bool :=
  table.contains path

/-- `enum ba_transport_signal`, restricted to the PCM control signals the
claims mention. -/
inductive TSignal
  | pcmPause
  | pcmResume
  | pcmDrop
  deriving DecidableEq

/-- Which worker-thread slot of the transport a signal is sent to. -/
inductive Slot
  | enc
  | dec
  deriving DecidableEq

/-- The two worker-thread signal pipes of a transport, as the lists of signal
records written to them. -/
structure Threads where
  encPipe : List TSignal
  decPipe : List TSignal
  deriving DecidableEq

/-- The pipe of a given slot. -/
def Threads.pipeOf (ts : Threads) : Slot → List TSignal
  | .enc => ts.encPipe
  | .dec => ts.decPipe

/-- A PCM endpoint's thread binding (`pcm->th`) together with its transport's
thread slots (`pcm->t->thread_enc` / `thread_dec`). -/
structure PcmH where
  th : Slot
  t : Threads
  deriving DecidableEq

/-- `ba_transport_thread_send_signal` (ba-transport.c:1111): one `write` of the
fixed-size signal record to the slot's pipe; `writeOk` is the environment
(whether the `write` succeeds), and the returned `Int` is the `write` return
value (`sizeof(sig) = 4`, or -1 on failure). -/
def ba_transport_thread_send_signal (ts : Threads) (slot : Slot) (sig : TSignal)
    (writeOk : Bool) : Threads × Int :=
  if writeOk then
    (match slot with
     | .enc => { ts with encPipe := ts.encPipe ++ [sig] }
     | .dec => { ts with decPipe := ts.decPipe ++ [sig] }, 4)
  else
    (ts, -1)

/-- `ba_transport_pcm_pause` (ba-transport.c:828): sends `PCM_PAUSE` to the
endpoint's own thread (`pcm->th`) and returns 0 regardless of the write
result. -/
def ba_transport_pcm_pause (p : PcmH) (writeOk : Bool) : PcmH × Int :=
  ({ p with t := (ba_transport_thread_send_signal p.t p.th .pcmPause writeOk).1 }, 0)

/-- `ba_transport_pcm_resume` (ba-transport.c:834): sends `PCM_RESUME` to the
endpoint's own thread (`pcm->th`) and returns 0 regardless of the write
result. -/
def ba_transport_pcm_resume (p : PcmH) (writeOk : Bool) : PcmH × Int :=
  ({ p with t := (ba_transport_thread_send_signal p.t p.th .pcmResume writeOk).1 }, 0)

/-- `ba_transport_pcm_drop` (ba-transport.c:866): sends `PCM_DROP` to the
transport's encoder slot (`pcm->t->thread_enc`), not to `pcm->th`, and returns
0 regardless of the write result. -/
def ba_transport_pcm_drop (p : PcmH) (writeOk : Bool) : PcmH × Int :=
  ({ p with t := (ba_transport_thread_send_signal p.t Slot.enc .pcmDrop writeOk).1 }, 0)

/-- Modelled from the spec: `audio_decibel_to_loudness` lives in `audio.c`,
which is not under `src/`; the spec calls it "a perceptual dB-to-loudness
curve".  The standard perceptual rule (loudness doubles every 10 dB) gives
`loudness(dB) = 2^(dB/10)`, with C doubles modelled as real numbers. -/
noncomputable def audio_decibel_to_loudness (value : ℝ) : ℝ :=
  (2 : ℝ) ^ (value / 10)

/-- Modelled from the spec: `audio_loudness_to_decibel` (audio.c, not under
`src/`), the inverse of the curve: `10 · log₂(loudness)`. -/
noncomputable def audio_loudness_to_decibel (value : ℝ) : ℝ :=
  10 * Real.logb 2 value

/-- C double-to-int conversion: truncation toward zero. -/
noncomputable def ctrunc (x : ℝ) : ℤ :=
  if 0 ≤ x then ⌊x⌋ else ⌈x⌉

/-- `ba_transport_pcm_volume_level_to_bt` (ba-transport.c:774).  `value` is the
level in dB×100; the result is `(int)(loudness(value/100) · max_bt_volume)`
clamped to `[0, max_bt_volume]` (the C `MIN((unsigned)MAX(volume, 0), max)`). -/
noncomputable def ba_transport_pcm_volume_level_to_bt (maxBtVolume : Nat)
    (value : Int) : Nat :=
  (min (max (ctrunc (audio_decibel_to_loudness ((value : ℝ) / 100) * (maxBtVolume : ℝ)))
    0) (maxBtVolume : Int)).toNat

/-- `ba_transport_pcm_volume_bt_to_level` (ba-transport.c:781).  The raw volume
is mapped through the inverse curve, clamped to `[-96, 96]` dB and scaled by
100 into an `int`.  For `value = 0` the IEEE double `log2(0) = -inf`, so the
C `MIN(MAX(level, -96.0), 96.0)` yields exactly -96, i.e. -9600 after
scaling. -/
noncomputable def ba_transport_pcm_volume_bt_to_level (maxBtVolume : Nat)
    (value : Nat) : Int :=
  if value = 0 then -9600
  else
    ctrunc (min (max (audio_loudness_to_decibel ((value : ℝ) / (maxBtVolume : ℝ)))
      (-96)) 96 * 100)

/-- One channel of `pcm->volume`: level in dB×100 and the mute flag. -/
structure VolChan where
  level : Int
  muted : Bool

/-- What `ba_transport_pcm_volume_update` propagates to the peer: the BlueZ
`Volume` property (A2DP), the RFCOMM `UPDATE_VOLUME` signal (SCO with an
attached RFCOMM session), or nothing. -/
inductive PeerVolumeAction
  | setVolumeProperty (volume : Nat)
  | rfcommUpdateVolume
  deriving DecidableEq

/-- `ba_transport_pcm_volume_update` (ba-transport.c:788).  With soft volume on
an A2DP-source or AG profile, nothing is propagated.  For A2DP the effective
level is 0 when either channel is muted, else the mean of the two channel
levels (C integer division truncates toward zero, `Int.tdiv`); the peer's
`Volume` property is set to `level_to_bt` of that level.  For SCO with an
RFCOMM session the RFCOMM worker is signalled.  Returns the propagation action
and the unconditional return value 0. -/
noncomputable def ba_transport_pcm_volume_update (profile : Profile)
    (softVolume : Bool) (hasRfcomm : Bool) (maxBtVolume : Nat)
    (v0 v1 : VolChan) : Option PeerVolumeAction × Int :=
  if softVolume ∧ (profile = Profile.a2dpSource ∨ profile.isAG) then
    (none, 0)
  else if profile.isA2dp then
    let level : Int :=
      if !v0.muted ∧ !v1.muted then Int.tdiv (v0.level + v1.level) 2 else 0
    (some (.setVolumeProperty (ba_transport_pcm_volume_level_to_bt maxBtVolume level)), 0)
  else if hasRfcomm then
    (some .rfcommUpdateVolume, 0)
  else
    (none, 0)

/-- C1 counterexample: on an acquired A2DP transport (`bt_fd = 7`) in state
`ACTIVE` with a present D-Bus owner, a hard error from the `Release` RPC makes
the release strategy return -1 and leave `bt_fd = 7`, so it is not the case
that after the release strategy returns `bt_fd = -1`. -/
theorem C1_release_counterexample :
    (transport_release_bt_a2dp ⟨.a2dpSource, 0, .active, 7, 0, 0, true⟩
      ReleaseReply.hardError).1 = -1 ∧
    (transport_release_bt_a2dp ⟨.a2dpSource, 0, .active, 7, 0, 0, true⟩
      ReleaseReply.hardError).2.1.btFd = 7 := by
  decide

/-- C1 (amended): the SCO release strategy always returns 0 and leaves
`bt_fd = -1`; the A2DP release strategy leaves `bt_fd = -1` whenever it
returns success; a release on an already-released transport (`bt_fd = -1`) is
a no-op returning success with no side effect; hence two consecutive releases
both return success and leave `bt_fd = -1` provided the first one succeeds. -/
theorem C1_release_amended (t : Transport) (env env2 : ReleaseReply) :
    (transport_release_bt_sco t).1 = 0 ∧
    (transport_release_bt_sco t).2.1.btFd = -1 ∧
    ((transport_release_bt_a2dp t env).1 = 0 →
      (transport_release_bt_a2dp t env).2.1.btFd = -1) ∧
    (t.btFd = -1 →
      transport_release_bt_a2dp t env = (0, t, []) ∧
      transport_release_bt_sco t = (0, t, [])) ∧
    ((transport_release_bt_a2dp t env).1 = 0 →
      transport_release_bt_a2dp (transport_release_bt_a2dp t env).2.1 env2 =
        (0, (transport_release_bt_a2dp t env).2.1, [])) := by
  have hnoop : ∀ (u : Transport) (e : ReleaseReply), u.btFd = -1 →
      transport_release_bt_a2dp u e = (0, u, []) := by
    intro u e hu
    simp [transport_release_bt_a2dp, hu]
  have hbt : (transport_release_bt_a2dp t env).1 = 0 →
      (transport_release_bt_a2dp t env).2.1.btFd = -1 := by
    by_cases hfd : t.btFd = -1
    · intro _
      simp [transport_release_bt_a2dp, hfd]
    · by_cases hc : t.a2dpState ≠ A2dpState.idle ∧ t.ownerPresent
      · cases env <;> simp [transport_release_bt_a2dp, hfd, hc]
      · simp [transport_release_bt_a2dp, hfd, hc]
  have hsco : (transport_release_bt_sco t).1 = 0 ∧
      (transport_release_bt_sco t).2.1.btFd = -1 := by
    by_cases hfd : t.btFd = -1 <;> simp [transport_release_bt_sco, hfd]
  refine ⟨hsco.1, hsco.2, hbt, fun h => ⟨hnoop t env h, ?_⟩,
    fun h0 => hnoop _ env2 (hbt h0)⟩
  simp [transport_release_bt_sco, h]

/-- C1 witness: a concrete first release succeeds (state `IDLE`, so the RPC is
skipped) and the second release on the resulting transport is a success
no-op. -/
theorem C1_release_amended_witness :
    transport_release_bt_a2dp
      (transport_release_bt_a2dp ⟨.a2dpSink, 0, .idle, 5, 0, 0, true⟩
        ReleaseReply.ok).2.1 ReleaseReply.ok =
      (0, (transport_release_bt_a2dp ⟨.a2dpSink, 0, .idle, 5, 0, 0, true⟩
        ReleaseReply.ok).2.1, []) :=
  (C1_release_amended ⟨.a2dpSink, 0, .idle, 5, 0, 0, true⟩
    ReleaseReply.ok ReleaseReply.ok).2.2.2.2 (by decide)

/-- C2: on a transport whose `bt_fd ≠ -1`, both acquire strategies return that
same descriptor, leave the whole transport state (including `bt_fd`,
`mtu_read`, `mtu_write`) unchanged, and perform no RPC and no socket
operation (empty effect list), for every environment. -/
theorem C2_acquire_keepalive (t : Transport) (envA : AcquireReply)
    (envS : ScoConnectResult) (h : t.btFd ≠ -1) :
    transport_acquire_bt_a2dp t envA = (t.btFd, t, []) ∧
    transport_acquire_bt_sco t envS = (t.btFd, t, []) := by
  constructor <;> simp [transport_acquire_bt_a2dp, transport_acquire_bt_sco, h]

/-- C2 witness: keep-alive on a concrete acquired transport (`bt_fd = 9`). -/
theorem C2_acquire_keepalive_witness :
    transport_acquire_bt_a2dp ⟨.a2dpSource, 0, .active, 9, 3, 4, true⟩
        AcquireReply.failure =
      (9, ⟨.a2dpSource, 0, .active, 9, 3, 4, true⟩, []) ∧
    transport_acquire_bt_sco ⟨.a2dpSource, 0, .active, 9, 3, 4, true⟩
        ScoConnectResult.openFailure =
      (9, ⟨.a2dpSource, 0, .active, 9, 3, 4, true⟩, []) :=
  C2_acquire_keepalive ⟨.a2dpSource, 0, .active, 9, 3, 4, true⟩
    AcquireReply.failure ScoConnectResult.openFailure (by decide)

/-- C3 counterexample: for a reply carrying handle-index 1 and FD list
`[33, 44]`, the code stores FD 33 (index 0 of the list) into `bt_fd`, whereas
selecting by the reply's handle-index as the claim states would give 44. -/
theorem C3_acquire_fd_counterexample :
    (transport_acquire_bt_a2dp ⟨.a2dpSink, 0, .pending, -1, 0, 0, true⟩
        (AcquireReply.reply 1 300 400 [33, 44])).2.1.btFd = 33 ∧
    a2dp_acquire_fd_per_spec 1 [33, 44] = 44 ∧ (33 : Int) ≠ 44 := by
  decide

/-- C3 (amended): for an unacquired A2DP transport, acquire issues `TryAcquire`
when the A2DP state is `PENDING` and `Acquire` otherwise, stores the reply's
MTUs into `mtu_read`/`mtu_write`, and sets `bt_fd` to the FD at index 0 of the
reply's attached FD list, ignoring the reply's handle-index. -/
theorem C3_a2dp_acquire_amended (t : Transport) (h : t.btFd = -1)
    (handleIdx mr mw : Nat) (fds : List Int) :
    transport_acquire_bt_a2dp t (AcquireReply.reply handleIdx mr mw fds) =
      (fds.headD (-1),
       { t with btFd := fds.headD (-1), mtuRead := mr, mtuWrite := mw },
       [.rpcCall (if t.a2dpState = A2dpState.pending then "TryAcquire" else "Acquire"),
        .setSockOptSndBuf, .ioctlOutq]) := by
  simp [transport_acquire_bt_a2dp, h]

/-- C3 witness: the amended acquire behaviour at a concrete pending transport
and a concrete reply. -/
theorem C3_a2dp_acquire_amended_witness :
    transport_acquire_bt_a2dp ⟨.a2dpSink, 0, .pending, -1, 0, 0, true⟩
        (AcquireReply.reply 7 300 400 [33, 44]) =
      (33, ⟨.a2dpSink, 0, .pending, 33, 300, 400, true⟩,
       [.rpcCall "TryAcquire", .setSockOptSndBuf, .ioctlOutq]) := by
  have h := C3_a2dp_acquire_amended ⟨.a2dpSink, 0, .pending, -1, 0, 0, true⟩
    rfl 7 300 400 [33, 44]
  simpa using h

/-- C4: `set_a2dp_state` unconditionally assigns the A2DP state field and then
dispatches exactly the side effect of the target state: acquire iff the state
is `PENDING` and the profile is exactly A2DP-sink, the plain `return 0` iff
`PENDING` on any other profile, start iff `ACTIVE`, stop iff `IDLE`. -/
theorem C4_set_a2dp_state (t : Transport) (s : A2dpState) :
    (ba_transport_set_a2dp_state t s).1 = { t with a2dpState := s } ∧
    ((ba_transport_set_a2dp_state t s).2 = A2dpSideEffect.invokeAcquire ↔
      (s = A2dpState.pending ∧ t.profile = Profile.a2dpSink)) ∧
    ((ba_transport_set_a2dp_state t s).2 = A2dpSideEffect.noneReturn0 ↔
      (s = A2dpState.pending ∧ t.profile ≠ Profile.a2dpSink)) ∧
    ((ba_transport_set_a2dp_state t s).2 = A2dpSideEffect.invokeStart ↔
      s = A2dpState.active) ∧
    ((ba_transport_set_a2dp_state t s).2 = A2dpSideEffect.invokeStop ↔
      s = A2dpState.idle) := by
  cases s <;> by_cases hp : t.profile = Profile.a2dpSink <;>
    simp_all [ba_transport_set_a2dp_state]

/-- C5: a successful SCO create forces the codec to CVSD whenever the profile
is HSP or the adapter lacks eSCO support and keeps the supplied codec
otherwise, and initializes the speaker PCM in sink mode and the mic PCM in
source mode, both with `max_bt_volume = 15`. -/
theorem C5_new_sco (profile : Profile) (codec : Nat) (esco : Bool) (rfd : Int) :
    (ba_transport_new_sco profile codec esco rfd).codec =
      (if profile.isHsp || !esco then HFP_CODEC_CVSD else codec) ∧
    (ba_transport_new_sco profile codec esco rfd).spkPcm.maxBtVolume = 15 ∧
    (ba_transport_new_sco profile codec esco rfd).micPcm.maxBtVolume = 15 ∧
    (ba_transport_new_sco profile codec esco rfd).spkPcm.mode = PcmMode.sink ∧
    (ba_transport_new_sco profile codec esco rfd).micPcm.mode = PcmMode.source := by
  cases esco <;> cases profile <;>
    simp [ba_transport_new_sco, ba_transport_set_codec_sco, Profile.isHsp]

/-- C6 counterexample: the unknown SCO codec id 3 is not a programming error in
the code: `ba_transport_set_codec_sco` yields the same defined result as for
`HFP_CODEC_UNDEFINED` (sampling rate 0), whereas the claim's mapping treats it
as an assert (no result). -/
theorem C6_sco_codec_counterexample :
    ba_transport_set_codec_sco 3 ⟨.sink, 15, .s16le2, 0, 0⟩
        ⟨.source, 15, .s16le2, 0, 0⟩ =
      ba_transport_set_codec_sco HFP_CODEC_UNDEFINED ⟨.sink, 15, .s16le2, 0, 0⟩
        ⟨.source, 15, .s16le2, 0, 0⟩ ∧
    (ba_transport_set_codec_sco 3 ⟨.sink, 15, .s16le2, 0, 0⟩
        ⟨.source, 15, .s16le2, 0, 0⟩).1.sampling = 0 ∧
    sco_codec_rate_per_spec 3 = none := by
  decide

/-- C6 (amended): the SCO codec-to-PCM mapping sets both endpoints to 1 channel
and 16-bit signed little-endian format, with sampling rate 8000 for CVSD,
16000 for mSBC, and 0 for the undefined codec; any other (unknown) codec id is
logged and treated like the undefined codec (rate 0), without an assert. -/
theorem C6_sco_codec_map (codec : Nat) (spk mic : ScoPcm) :
    (ba_transport_set_codec_sco codec spk mic).1.channels = 1 ∧
    (ba_transport_set_codec_sco codec spk mic).2.channels = 1 ∧
    (ba_transport_set_codec_sco codec spk mic).1.format = PcmFormat.s16le2 ∧
    (ba_transport_set_codec_sco codec spk mic).2.format = PcmFormat.s16le2 ∧
    (ba_transport_set_codec_sco codec spk mic).1.sampling =
      (if codec = HFP_CODEC_CVSD then 8000
       else if codec = HFP_CODEC_MSBC then 16000 else 0) ∧
    (ba_transport_set_codec_sco codec spk mic).2.sampling =
      (if codec = HFP_CODEC_CVSD then 8000
       else if codec = HFP_CODEC_MSBC then 16000 else 0) := by
  simp [ba_transport_set_codec_sco]

/-- C9 counterexample: on the transition to zero refcount of an acquired A2DP
transport, the release events happen in the order FD close, device unref, PCM
frees, blob free, thread-handle frees -- the device unref is second, not last
as the claim states. -/
theorem C9_unref_order_counterexample :
    (ba_transport_unref ["/org/t0"] ⟨1, "/org/t0", 5, true, false⟩).2.2 =
      [FreeEv.closeBtFd, FreeEv.deviceUnref, FreeEv.freePcm, FreeEv.freePcmBc,
       FreeEv.freeConfigBlob, FreeEv.freeThreadEnc, FreeEv.freeThreadDec] ∧
    (ba_transport_unref ["/org/t0"] ⟨1, "/org/t0", 5, true, false⟩).2.2 ≠
      [FreeEv.closeBtFd, FreeEv.freePcm, FreeEv.freePcmBc, FreeEv.freeConfigBlob,
       FreeEv.freeThreadEnc, FreeEv.freeThreadDec, FreeEv.deviceUnref] := by
  decide

/-- C9 (amended): unref decrements the refcount and, atomically with the
decrement reaching zero, detaches the transport from the device's table, after
which it is not reachable via device lookup; the resources are then released
in the order: Bluetooth FD closed, device unref'd, PCM endpoints freed,
profile-specific blob freed, both worker-thread handles freed.  A decrement
from a refcount greater than one releases nothing and keeps the table
unchanged, so the zero transition happens at most once. -/
theorem C9_unref_amended (table : List String) (t : UnrefT) :
    (t.refCount = 1 →
      ba_transport_unref table t =
        (table.filter (fun p => p ≠ t.path), 0, unrefFreeEvents t) ∧
      ba_transport_lookup (ba_transport_unref table t).1 t.path = false) ∧
    (∀ n, t.refCount = n + 2 → ba_transport_unref table t = (table, n + 1, [])) ∧
    (t.profileA2dp = true → t.btFd ≠ -1 →
      unrefFreeEvents t =
        [FreeEv.closeBtFd, FreeEv.deviceUnref, FreeEv.freePcm, FreeEv.freePcmBc,
         FreeEv.freeConfigBlob, FreeEv.freeThreadEnc, FreeEv.freeThreadDec]) := by
  refine ⟨fun h1 => ⟨?_, ?_⟩, fun n hn => ?_, fun ha hfd => ?_⟩
  · simp [ba_transport_unref, h1]
  · simp only [ba_transport_unref, h1]
    simp [ba_transport_lookup, List.mem_filter]
  · simp [ba_transport_unref, hn]
  · simp [unrefFreeEvents, ha, hfd]

/-- C9 witness: the amended unref behaviour at a concrete single-reference SCO
transport with an attached RFCOMM session and no acquired FD. -/
theorem C9_unref_amended_witness :
    ba_transport_unref ["/org/t0"] ⟨1, "/org/t0", -1, false, true⟩ =
      ((["/org/t0"] : List String).filter (fun p => p ≠ "/org/t0"), 0,
        unrefFreeEvents ⟨1, "/org/t0", -1, false, true⟩) ∧
    ba_transport_lookup
      (ba_transport_unref ["/org/t0"] ⟨1, "/org/t0", -1, false, true⟩).1
      "/org/t0" = false :=
  (C9_unref_amended ["/org/t0"] ⟨1, "/org/t0", -1, false, true⟩).1 (by decide)

/-- C10: `pcm_drop` writes `PCM_DROP` to the encoder slot's pipe regardless of
which slot owns the endpoint (`pcm->th`), while `pcm_pause` and `pcm_resume`
write their signals to the pipe of the endpoint's own slot; all three return 0
unconditionally, even when the pipe write fails. -/
theorem C10_pcm_signal_routing (p : PcmH) (w : Bool) :
    (ba_transport_pcm_drop p w).2 = 0 ∧
    (ba_transport_pcm_pause p w).2 = 0 ∧
    (ba_transport_pcm_resume p w).2 = 0 ∧
    (ba_transport_pcm_drop p w).1.t.encPipe =
      p.t.encPipe ++ (if w then [TSignal.pcmDrop] else []) ∧
    (ba_transport_pcm_drop p w).1.t.decPipe = p.t.decPipe ∧
    (ba_transport_pcm_pause p w).1.t.pipeOf p.th =
      p.t.pipeOf p.th ++ (if w then [TSignal.pcmPause] else []) ∧
    (ba_transport_pcm_resume p w).1.t.pipeOf p.th =
      p.t.pipeOf p.th ++ (if w then [TSignal.pcmResume] else []) := by
  cases w <;> cases hth : p.th <;>
    simp_all [ba_transport_pcm_drop, ba_transport_pcm_pause,
      ba_transport_pcm_resume, ba_transport_thread_send_signal, Threads.pipeOf]

/-- C truncation toward zero of a nonnegative double is the floor. -/
theorem ctrunc_of_nonneg {x : ℝ} (h : 0 ≤ x) : ctrunc x = ⌊x⌋ := if_pos h

/-- C truncation toward zero of a nonpositive double is the ceiling. -/
theorem ctrunc_of_nonpos {x : ℝ} (h : x ≤ 0) : ctrunc x = ⌈x⌉ := by
  unfold ctrunc
  split
  · have hx : x = 0 := le_antisymm h (by assumption)
    simp [hx]
  · rfl

/-- Key rounding bound: one step of the dB×100 grid multiplies the loudness by
less than `1 + 1/v` for any raw volume `v ≤ 127`. -/
theorem two_rpow_inv1000_lt {v : ℕ} (hv : 0 < v) (hv2 : v ≤ 127) :
    (2 : ℝ) ^ ((1 : ℝ) / 1000) < 1 + 1 / (v : ℝ) := by
  have hv0 : (0 : ℝ) < v := by exact_mod_cast hv
  have hx : (0 : ℝ) < 1 / (v : ℝ) := by positivity
  have hvpos : (0 : ℝ) < 1 + 1 / (v : ℝ) := by linarith
  have hlog : (1 / (v : ℝ)) / (1 + 1 / (v : ℝ)) ≤ Real.log (1 + 1 / (v : ℝ)) := by
    have h := Real.log_le_sub_one_of_pos (show (0 : ℝ) < (1 + 1 / (v : ℝ))⁻¹ by positivity)
    rw [Real.log_inv] at h
    have heq : (1 + 1 / (v : ℝ))⁻¹ - 1 = -((1 / (v : ℝ)) / (1 + 1 / (v : ℝ))) := by
      field_simp
    rw [heq] at h
    linarith
  have hsimp : (1 / (v : ℝ)) / (1 + 1 / (v : ℝ)) = 1 / ((v : ℝ) + 1) := by
    field_simp
  have h128 : (1 : ℝ) / 128 ≤ 1 / ((v : ℝ) + 1) := by
    apply one_div_le_one_div_of_le (by linarith)
    have : (v : ℝ) ≤ 127 := by exact_mod_cast hv2
    linarith
  have hlog2 : Real.log 2 < 1 := by
    have := Real.log_two_lt_d9
    linarith
  have hlhs : (2 : ℝ) ^ ((1 : ℝ) / 1000) = Real.exp (Real.log 2 * (1 / 1000)) := by
    rw [Real.rpow_def_of_pos (by norm_num : (0 : ℝ) < 2)]
  have hstep : Real.log 2 * (1 / 1000) < Real.log (1 + 1 / (v : ℝ)) := by
    have h1 : Real.log 2 * (1 / 1000) < 1 / 1000 := by
      have hl2 : 0 < Real.log 2 := Real.log_pos (by norm_num)
      nlinarith
    have h2 : (1 : ℝ) / 1000 < 1 / 128 := by norm_num
    rw [hsimp] at hlog
    linarith
  rw [hlhs]
  calc Real.exp (Real.log 2 * (1 / 1000))
      < Real.exp (Real.log (1 + 1 / (v : ℝ))) := Real.exp_lt_exp.mpr hstep
    _ = 1 + 1 / (v : ℝ) := Real.exp_log hvpos

/-- The volume mapping round trip is the exact identity on raw Bluetooth
volumes `v ≤ max_bt_volume` for any `max_bt_volume ≤ 127`. -/
theorem volume_roundtrip_aux (m v : ℕ) (hm : 0 < m) (hm127 : m ≤ 127) (hv : v ≤ m) :
    ba_transport_pcm_volume_level_to_bt m (ba_transport_pcm_volume_bt_to_level m v) = v := by
  have hm0 : (0 : ℝ) < m := by exact_mod_cast hm
  by_cases hv0 : v = 0
  · subst hv0
    have hbt0 : ba_transport_pcm_volume_bt_to_level m 0 = -9600 := by simp [ba_transport_pcm_volume_bt_to_level]
    rw [hbt0, ba_transport_pcm_volume_level_to_bt, audio_decibel_to_loudness]
    have hexp : (((-9600 : ℤ) : ℝ) / 100) / 10 = -(((7 : ℕ) : ℝ) + 13 / 5) := by norm_num
    rw [hexp]
    have h27 : (2 : ℝ) ^ (((7 : ℕ) : ℝ)) = 128 := by
      rw [Real.rpow_natCast]; norm_num
    have h1 : (2 : ℝ) ^ (-(((7 : ℕ) : ℝ) + 13 / 5)) ≤ (2 : ℝ) ^ (-((7 : ℕ) : ℝ)) := by
      apply (Real.rpow_le_rpow_left_iff (by norm_num : (1 : ℝ) < 2)).mpr
      norm_num
    have h2 : (2 : ℝ) ^ (-((7 : ℕ) : ℝ)) = 1 / 128 := by
      rw [Real.rpow_neg (by norm_num : (0 : ℝ) ≤ 2), h27]
      norm_num
    have hlt : (2 : ℝ) ^ (-(((7 : ℕ) : ℝ) + 13 / 5)) * (m : ℝ) < 1 := by
      calc (2 : ℝ) ^ (-(((7 : ℕ) : ℝ) + 13 / 5)) * (m : ℝ)
          ≤ (1 / 128) * (m : ℝ) := by
            apply mul_le_mul_of_nonneg_right _ (le_of_lt hm0)
            rw [← h2]; exact h1
        _ ≤ (1 / 128) * 127 := by
            apply mul_le_mul_of_nonneg_left _ (by norm_num)
            exact_mod_cast hm127
        _ < 1 := by norm_num
    have hge : (0 : ℝ) ≤ (2 : ℝ) ^ (-(((7 : ℕ) : ℝ) + 13 / 5)) * (m : ℝ) := by positivity
    rw [ctrunc_of_nonneg hge]
    have hfloor : ⌊(2 : ℝ) ^ (-(((7 : ℕ) : ℝ) + 13 / 5)) * (m : ℝ)⌋ = 0 :=
      Int.floor_eq_zero_iff.mpr ⟨hge, hlt⟩
    rw [hfloor]
    simp
  · -- v ≥ 1
    have hv1 : 1 ≤ v := Nat.one_le_iff_ne_zero.mpr hv0
    have hv0R : (0 : ℝ) < v := by exact_mod_cast Nat.pos_of_ne_zero hv0
    have hpos : (0 : ℝ) < (v : ℝ) / m := by positivity
    have hle1 : (v : ℝ) / m ≤ 1 := by
      rw [div_le_one hm0]; exact_mod_cast hv
    have hx0 : Real.logb 2 ((v : ℝ) / m) ≤ 0 :=
      Real.logb_nonpos (by norm_num) (le_of_lt hpos) hle1
    have hxlb : -7 ≤ Real.logb 2 ((v : ℝ) / m) := by
      have h27 : (2 : ℝ) ^ (((7 : ℕ) : ℝ)) = 128 := by
        rw [Real.rpow_natCast]; norm_num
      have h2 : (2 : ℝ) ^ (-(7 : ℝ)) = 1 / 128 := by
        rw [show (-(7 : ℝ)) = -(((7 : ℕ) : ℝ)) by norm_num,
          Real.rpow_neg (by norm_num : (0 : ℝ) ≤ 2), h27]
        norm_num
      have hvm : (2 : ℝ) ^ (-(7 : ℝ)) ≤ (v : ℝ) / m := by
        rw [h2]
        have hA : (1 : ℝ) / 128 ≤ 1 / (m : ℝ) := by
          apply one_div_le_one_div_of_le hm0
          have : (m : ℝ) ≤ 127 := by exact_mod_cast hm127
          linarith
        have hB : (1 : ℝ) / (m : ℝ) ≤ (v : ℝ) / m := by
          gcongr
          exact_mod_cast hv1
        linarith
      exact (Real.le_logb_iff_rpow_le (by norm_num : (1 : ℝ) < 2) hpos).mpr hvm
    -- ba_transport_pcm_volume_bt_to_level reduces to the ceiling of 1000 * logb
    rw [ba_transport_pcm_volume_bt_to_level, if_neg hv0, audio_loudness_to_decibel]
    have hclamp : min (max (10 * Real.logb 2 ((v : ℝ) / m)) (-96)) 96 =
        10 * Real.logb 2 ((v : ℝ) / m) := by
      rw [max_eq_left (by linarith), min_eq_left (by linarith)]
    rw [hclamp]
    rw [ctrunc_of_nonpos (by nlinarith)]
    have hLge : (10 : ℝ) * Real.logb 2 ((v : ℝ) / m) * 100 ≤
        ((⌈10 * Real.logb 2 ((v : ℝ) / m) * 100⌉ : ℤ) : ℝ) := Int.le_ceil _
    have hLlt : ((⌈10 * Real.logb 2 ((v : ℝ) / m) * 100⌉ : ℤ) : ℝ) <
        10 * Real.logb 2 ((v : ℝ) / m) * 100 + 1 := Int.ceil_lt_add_one _
    set L : ℤ := ⌈10 * Real.logb 2 ((v : ℝ) / m) * 100⌉ with hLdef
    -- ba_transport_pcm_volume_level_to_bt
    rw [ba_transport_pcm_volume_level_to_bt, audio_decibel_to_loudness]
    have hexp : ((L : ℝ) / 100) / 10 = (L : ℝ) / 1000 := by ring
    rw [hexp]
    have hrw : (2 : ℝ) ^ (Real.logb 2 ((v : ℝ) / m)) = (v : ℝ) / m :=
      Real.rpow_logb (by norm_num) (by norm_num) hpos
    have hylb : (v : ℝ) ≤ (2 : ℝ) ^ ((L : ℝ) / 1000) * m := by
      have h1 : Real.logb 2 ((v : ℝ) / m) ≤ (L : ℝ) / 1000 := by linarith
      have h2 : (2 : ℝ) ^ (Real.logb 2 ((v : ℝ) / m)) ≤ (2 : ℝ) ^ ((L : ℝ) / 1000) :=
        (Real.rpow_le_rpow_left_iff (by norm_num : (1 : ℝ) < 2)).mpr h1
      rw [hrw] at h2
      calc (v : ℝ) = ((v : ℝ) / m) * m := by field_simp
        _ ≤ (2 : ℝ) ^ ((L : ℝ) / 1000) * m :=
            mul_le_mul_of_nonneg_right h2 (le_of_lt hm0)
    have hyub : (2 : ℝ) ^ ((L : ℝ) / 1000) * m < (v : ℝ) + 1 := by
      have h1 : (L : ℝ) / 1000 < Real.logb 2 ((v : ℝ) / m) + 1 / 1000 := by linarith
      have h2 : (2 : ℝ) ^ ((L : ℝ) / 1000) <
          (2 : ℝ) ^ (Real.logb 2 ((v : ℝ) / m) + 1 / 1000) :=
        (Real.rpow_lt_rpow_left_iff (by norm_num : (1 : ℝ) < 2)).mpr h1
      have h3 : (2 : ℝ) ^ (Real.logb 2 ((v : ℝ) / m) + 1 / 1000) =
          ((v : ℝ) / m) * (2 : ℝ) ^ ((1 : ℝ) / 1000) := by
        rw [Real.rpow_add (by norm_num : (0 : ℝ) < 2), hrw]
      have hkey : (2 : ℝ) ^ ((1 : ℝ) / 1000) < 1 + 1 / (v : ℝ) :=
        two_rpow_inv1000_lt (Nat.pos_of_ne_zero hv0) (by omega)
      have hchain : (2 : ℝ) ^ ((L : ℝ) / 1000) * m <
          ((v : ℝ) / m) * (2 : ℝ) ^ ((1 : ℝ) / 1000) * m := by
        apply mul_lt_mul_of_pos_right _ hm0
        rw [← h3]; exact h2
      have heq1 : ((v : ℝ) / m) * (2 : ℝ) ^ ((1 : ℝ) / 1000) * m =
          (v : ℝ) * (2 : ℝ) ^ ((1 : ℝ) / 1000) := by
        field_simp
      have hfin : (v : ℝ) * (2 : ℝ) ^ ((1 : ℝ) / 1000) < (v : ℝ) + 1 := by
        have := mul_lt_mul_of_pos_left hkey hv0R
        have heq2 : (v : ℝ) * (1 + 1 / (v : ℝ)) = (v : ℝ) + 1 := by
          field_simp
        linarith
      rw [heq1] at hchain
      linarith
    have hynn : (0 : ℝ) ≤ (2 : ℝ) ^ ((L : ℝ) / 1000) * m := by positivity
    rw [ctrunc_of_nonneg hynn]
    have hfloor : ⌊(2 : ℝ) ^ ((L : ℝ) / 1000) * (m : ℝ)⌋ = (v : ℤ) := by
      rw [Int.floor_eq_iff]
      constructor
      · push_cast
        exact hylb
      · push_cast
        exact hyub
    rw [hfloor]
    rw [max_eq_left (by positivity), min_eq_left (by exact_mod_cast hv)]
    simp

/-- The clamp in `level_to_bt` bounds the result by `max_bt_volume`. -/
theorem level_to_bt_le (m : ℕ) (L : ℤ) :
    ba_transport_pcm_volume_level_to_bt m L ≤ m := by
  rw [ba_transport_pcm_volume_level_to_bt]
  exact Int.toNat_le.mpr (min_le_right _ _)

/-- `level_to_bt` at level 0 (0 dB, unity loudness) yields the full raw
volume `max_bt_volume`. -/
theorem level_to_bt_zero (m : ℕ) :
    ba_transport_pcm_volume_level_to_bt m 0 = m := by
  rw [ba_transport_pcm_volume_level_to_bt, audio_decibel_to_loudness]
  have h0 : (((0 : ℤ) : ℝ) / 100) / 10 = 0 := by norm_num
  rw [h0, Real.rpow_zero, one_mul, ctrunc_of_nonneg (by positivity),
    Int.floor_natCast, max_eq_left (by positivity), min_self]
  exact Int.toNat_natCast m

/-- C7: for every PCM endpoint (`max_bt_volume ≤ 127` covers both the A2DP
value 127 and the SCO value 15) and every raw Bluetooth volume `v` in
`[0, max_bt_volume]`, `level_to_bt (ba_transport_pcm_volume_bt_to_level v) = v` (the composition is
the identity, so in particular it is the identity up to rounding), and
`level_to_bt` always returns a value at most `max_bt_volume`. -/
theorem C7_volume_roundtrip (m v : ℕ) (hm : 0 < m) (hm127 : m ≤ 127)
    (hv : v ≤ m) :
    ba_transport_pcm_volume_level_to_bt m
      (ba_transport_pcm_volume_bt_to_level m v) = v ∧
    ∀ L : ℤ, ba_transport_pcm_volume_level_to_bt m L ≤ m :=
  ⟨volume_roundtrip_aux m v hm hm127 hv, fun L => level_to_bt_le m L⟩

/-- C7 witness: the round trip at the SCO maximum `max_bt_volume = 15`,
`v = 15`. -/
theorem C7_volume_roundtrip_witness :
    0 < 15 ∧ 15 ≤ 127 ∧ 15 ≤ 15 ∧
    ba_transport_pcm_volume_level_to_bt 15
      (ba_transport_pcm_volume_bt_to_level 15 15) = 15 :=
  ⟨by norm_num, by norm_num, by norm_num,
    (C7_volume_roundtrip 15 15 (by norm_num) (by norm_num) (by norm_num)).1⟩

/-- C8 (code behaviour at the failing input): on an A2DP sink endpoint with
hardware volume (`soft_volume = false`, `max_bt_volume = 127`) and channel 0
muted, `volume_update` propagates the raw Bluetooth volume
`level_to_bt(0) = 127` -- the maximum, not 0 as the claim states (the
code forces the effective *level* to 0 dB, which is unity loudness). -/
theorem C8_muted_volume_update_eval :
    ba_transport_pcm_volume_update Profile.a2dpSink false false 127
      ⟨-2000, true⟩ ⟨-2000, false⟩ =
      (some (PeerVolumeAction.setVolumeProperty 127), 0) ∧ (127 : ℕ) ≠ 0 := by
  refine ⟨?_, by decide⟩
  rw [ba_transport_pcm_volume_update]
  simp [Profile.isA2dp, Profile.isAG, level_to_bt_zero]

end BaTransport
